import Mathlib

/-! Intrinsic calibration service node.

A shallow embedding of the class icalServiceNode of
intrinsic_cal/src/ical_srv.cpp: the constructor state, init_blocks and the four
service callbacks (startCallBack, observationCallBack, runCallBack,
saveCallBack), followed by theorems about them.

Conventions of the embedding.

* A C++ int is an Int. Signed overflow is undefined in C++; the counters of this
  node would need 2^31 residual blocks in one problem to reach it.
* A double is a value of a type parameter D. The only arithmetic the node does on
  doubles (int to double conversion, division, comparison) is the class DoubleOps.
* A parameter block pointer (double*) and a shared_ptr to a camera are natural
  numbers standing for addresses and handles. The numeric contents of parameter
  blocks, which the solver adjusts in place, are not tracked.
* Every callback returns a CallResult: the value returned to the caller (none when
  control reaches the closing brace of the function without a return statement),
  the node afterwards, the response object afterwards, and the calls made on
  external collaborators and on the ROS log, in program order.
* An index read outside a vector yields none.
-/

namespace ICal

/-! ## Data model -/

/-- Arithmetic on the C++ type double that the node uses: conversion of an int,
division and the comparison less-or-equal. -/
class DoubleOps (D : Type) where
  ofInt : Int → D
  div : D → D → D
  le : D → D → Bool

/-- Exact rational arithmetic, an instance on which the definitions can be evaluated. -/
instance : DoubleOps ℚ where
  ofInt := fun n => (n : ℚ)
  div := fun a b => a / b
  le := fun a b => decide (a ≤ b)

/-- Address of a parameter block (a double* handed to ceres). -/
abbrev BlockPtr := Nat

/-- Handle of a Camera object held through a shared_ptr: its position in all_cameras_. -/
abbrev CameraPtr := Nat

/-- Point3d of basic_types.h. -/
structure Point3d (D : Type) where
  x : D
  y : D
  z : D
deriving DecidableEq, Repr

/-- Roi of basic_types.h. -/
structure Roi where
  x_min : Int
  x_max : Int
  y_min : Int
  y_max : Int
deriving DecidableEq, Repr

/-- Cost_function selector; the node names one value only. -/
inductive Cost_function where
  | CameraReprjErrorWithDistortion
deriving DecidableEq, Repr

/-- Modelled from the spec: the members of CameraParameters the node's control flow
reads (the header is not part of the sources); the intrinsic values themselves live
behind pb_intrinsics. -/
structure CameraParameters where
  width : Int
  height : Int
  pb_intrinsics : BlockPtr
deriving DecidableEq, Repr

/-- Modelled from the spec: the members of Camera the node reads or writes (the
header is not part of the sources). Identity is the unique camera_name_. -/
structure Camera where
  camera_name_ : String
  is_moving_ : Bool
  is_right_stereo_camera_ : Bool
  left_stereo_camera_name_ : String
  left_stereo_camera_ : Option CameraPtr
  camera_parameters_ : CameraParameters
deriving DecidableEq, Repr

/-- Pose6d, reduced to the address of its parameter block. -/
structure Pose6d where
  pb_pose : BlockPtr
deriving DecidableEq, Repr

/-- Circle grid parameters of a target, reduced to the member the node reads. -/
structure CircleGridParameters (D : Type) where
  circle_diameter : D
deriving DecidableEq, Repr

/-- Modelled from the spec: the members of Target the node reads (the header is
not part of the sources). -/
structure Target (D : Type) where
  target_name_ : String
  is_moving_ : Bool
  pub_rviz_vis_ : Bool
  num_points_ : Int
  pts_ : List (Point3d D)
  circle_grid_parameters_ : CircleGridParameters D
  pose_ : Pose6d
deriving DecidableEq, Repr

/-- Modelled from the spec: an Observation is the tuple (target, target point,
measured image x, measured image y) returned by a camera observer (the header is
not part of the sources). The shared_ptr to the target is the target it points to. -/
structure Observation (D : Type) where
  target : Target D
  point_id : Int
  image_loc_x : D
  image_loc_y : D
deriving DecidableEq, Repr

/-- CameraObservations is a vector of Observation. -/
abbrev CameraObservations (D : Type) := List (Observation D)

/-- The arguments of CircleCameraReprjErrorWithDistortionPK::Create. The point is
none when it was read outside pts_. -/
structure CostFunction (D : Type) where
  ox : D
  oy : D
  circle_diameter : D
  point : Option (Point3d D)
deriving DecidableEq, Repr

/-- One call of Problem::AddResidualBlock(cost_function, NULL, intrinsics, pose).
The intrinsic block is none when the camera was read outside all_cameras_. -/
structure ResidualBlock (D : Type) where
  cost_function : CostFunction D
  intrinsics : Option BlockPtr
  pose : BlockPtr
deriving DecidableEq, Repr

/-- A ceres::Problem: its residual blocks in the order they were added. -/
structure Problem (D : Type) where
  residual_blocks : List (ResidualBlock D)
deriving DecidableEq, Repr

/-- Result of new ceres::Problem. -/
def Problem.new (D : Type) : Problem D := { residual_blocks := [] }

/-- Problem::AddResidualBlock. -/
def Problem.AddResidualBlock {D : Type} (P : Problem D) (r : ResidualBlock D) : Problem D :=
  { residual_blocks := P.residual_blocks ++ [r] }

/-- ceres::LinearSolverType; the node names one value only. -/
inductive LinearSolverType where
  | DENSE_SCHUR
deriving DecidableEq, Repr

/-- The members of ceres::Solver::Options the node sets. -/
structure SolverOptions where
  linear_solver_type : LinearSolverType
  minimizer_progress_to_stdout : Bool
  max_num_iterations : Int
deriving DecidableEq, Repr

/-- ceres::TerminationType. -/
inductive TerminationType where
  | CONVERGENCE
  | NO_CONVERGENCE
  | FAILURE
  | USER_SUCCESS
  | USER_FAILURE
deriving DecidableEq, Repr

/-- The members of ceres::Solver::Summary the node reads. -/
structure Summary (D : Type) where
  termination_type : TerminationType
  initial_cost : D
  final_cost : D
deriving DecidableEq, Repr

/-- The external solver ceres::Solve(options, problem, summary): any function from
the options and the problem pointer to a summary. -/
abbrev SolverOracle (D : Type) := SolverOptions → Option (Problem D) → Summary D

/-- Modelled from the spec: request of the Run service,
Run(allowable_cost_per_observation) (the generated header is not part of the sources). -/
structure ical_srv_solveRequest (D : Type) where
  allowable_cost_per_observation : D
deriving DecidableEq, Repr

/-- Modelled from the spec: response of the Run service (the generated header is
not part of the sources). -/
structure ical_srv_solveResponse (D : Type) where
  final_cost_per_observation : D
deriving DecidableEq, Repr

/-- Response of std_srvs/Trigger. -/
structure TriggerResponse where
  success : Bool
  message : String
deriving DecidableEq, Repr

/-- What one camera observer answers after triggerCamera: how many times
observationsDone is false before it is true, and the list getObservations yields. -/
structure ObserverReply (D : Type) where
  polls : Nat
  observations : CameraObservations D

/-- Calls on external collaborators and on the ROS log. The event
unresolvedReference is modelled from the spec: the configuration error that
surfaces a lookup miss of getCameraByName, naming the camera looked up. -/
inductive Event (D : Type) where
  | rosError (msg : String)
  | rosInfo (msg : String)
  | rosErrorCosts (msg : String) (a : D) (b : D)
  | rosInfoCosts (msg : String) (a : D) (b : D)
  | unresolvedReference (camera_name : String)
  | displayRvizTarget (target : Nat)
  | clearTargets (camera : Nat)
  | clearObservations (camera : Nat)
  | addTarget (camera : Nat) (target : Nat) (roi : Roi) (cost_type : Cost_function)
  | triggerCamera (camera : Nat)
  | observationsDone (camera : Nat) (done : Bool)
  | getObservations (camera : Nat)
  | ceresSolve (options : SolverOptions) (problem : Option (Problem D))
  | poseShow (target : Nat) (msg : String)
  | pushCameraInfo (camera : Nat)
deriving DecidableEq, Repr

/-- Modelled from the spec: the parameter block registry CeresBlocks (its source is
not part of the sources). Entries are keyed by the entity name and, for moving
entities, by scene id, and refer to the entity by its handle. -/
structure CeresBlocks where
  static_cameras_ : List (String × CameraPtr)
  moving_cameras_ : List (String × Int × CameraPtr)
  static_targets_ : List (String × Nat)
  moving_targets_ : List (String × Int × Nat)
deriving DecidableEq, Repr

/-- The fields of icalServiceNode that the callbacks read or write. -/
structure icalServiceNode (D : Type) where
  all_cameras_ : List Camera
  all_targets_ : List (Target D)
  ceres_blocks_ : CeresBlocks
  P_ : Option (Problem D)
  problem_initialized_ : Bool
  total_observations_ : Int

/-- Result of one callback. -/
structure CallResult (D R : Type) where
  ret : Option Bool
  node : icalServiceNode D
  res : R
  events : List (Event D)

/-! ## runCallBack -/

/-- The three ROS_INFO lines runCallBack prints for one camera. -/
def cameraReport (D : Type) : List (Event D) :=
  [Event.rosInfo "camera_matrix data: [ %lf, 0.0, %lf, 0.0, %lf, %lf, 0.0, 0.0, 1.0]",
   Event.rosInfo "distortion data: [ %lf,  %lf,  %lf,  %lf,  %lf]",
   Event.rosInfo "projection_matrix data: [ %lf, 0.0, %lf, 0.0, 0.0, %lf, %lf, 0.0, 0.0, 0.0, 1.0, 0.0]"]

/-- The options runCallBack passes to the solver. -/
def runOptions : SolverOptions :=
  { linear_solver_type := LinearSolverType.DENSE_SCHUR
    minimizer_progress_to_stdout := true
    max_num_iterations := 2000 }

/-- Embedding of icalServiceNode::runCallBack. -/
def runCallBack {D : Type} [DoubleOps D] (Solve : SolverOracle D) (self : icalServiceNode D)
    (req : ical_srv_solveRequest D) (res : ical_srv_solveResponse D) :
    CallResult D (ical_srv_solveResponse D) :=
  if !self.problem_initialized_ then
    { ret := some false, node := self, res := res,
      events := [Event.rosError "must calll start service"] }
  else if self.total_observations_ == 0 then
    { ret := some false, node := self, res := res,
      events := [Event.rosError "must call observations service at least once"] }
  else
    let options := runOptions
    let summary := Solve options self.P_
    let solved : List (Event D) := [Event.ceresSolve options self.P_]
    if summary.termination_type != TerminationType.NO_CONVERGENCE then
      let initial_cost :=
        DoubleOps.div summary.initial_cost (DoubleOps.ofInt self.total_observations_)
      let final_cost := DoubleOps.div summary.final_cost (DoubleOps.ofInt self.total_observations_)
      let report : List (Event D) :=
        solved ++ [Event.rosInfoCosts "Problem solved, initial cost = %lf, final cost = %lf"
                    initial_cost final_cost]
          ++ (List.range self.all_targets_.length).map (fun j => Event.poseShow j "target_pose")
          ++ (List.range self.all_cameras_.length).flatMap (fun _ => cameraReport D)
      if DoubleOps.le final_cost req.allowable_cost_per_observation then
        { ret := some true, node := self, res := res,
          events := report ++ [Event.rosInfo "calibration was successful"] }
      else
        { ret := some false, node := self,
          res := { res with final_cost_per_observation := final_cost },
          events := report ++ [Event.rosErrorCosts "allowable cost exceeded %f > %f"
                                final_cost req.allowable_cost_per_observation] }
    else
      { ret := some false, node := self, res := res,
        events := solved ++ [Event.rosError "NO CONVERGENCE"] }

/-- Whether an event is a call of ceres::Solve. -/
def Event.isSolve {D : Type} : Event D → Bool
  | Event.ceresSolve _ _ => true
  | _ => false

/-! ## startCallBack, observationCallBack, saveCallBack -/

/-- Modelled from the spec: a registry with no parameter block bookkeeping. -/
def CeresBlocks.empty : CeresBlocks :=
  { static_cameras_ := [], moving_cameras_ := [], static_targets_ := [], moving_targets_ := [] }

/-- Modelled from the spec: clearCamerasTargets discards all parameter block
bookkeeping. -/
def CeresBlocks.clearCamerasTargets (_b : CeresBlocks) : CeresBlocks := CeresBlocks.empty

/-- Modelled from the spec: addStaticCamera registers one block for the camera and
is a no-op when the camera is already registered. -/
def CeresBlocks.addStaticCamera (b : CeresBlocks) (name : String) (cam : CameraPtr) :
    CeresBlocks :=
  if b.static_cameras_.any (fun e => e.1 == name) then b
  else { b with static_cameras_ := b.static_cameras_ ++ [(name, cam)] }

/-- Modelled from the spec: addMovingCamera registers one block for the pair
(camera, scene_id) and reuses the block of a pair already registered. -/
def CeresBlocks.addMovingCamera (b : CeresBlocks) (name : String) (cam : CameraPtr)
    (scene_id : Int) : CeresBlocks :=
  if b.moving_cameras_.any (fun e => e.1 == name && e.2.1 == scene_id) then b
  else { b with moving_cameras_ := b.moving_cameras_ ++ [(name, scene_id, cam)] }

/-- Modelled from the spec: addStaticTarget, as addStaticCamera. -/
def CeresBlocks.addStaticTarget (b : CeresBlocks) (name : String) (tgt : Nat) : CeresBlocks :=
  if b.static_targets_.any (fun e => e.1 == name) then b
  else { b with static_targets_ := b.static_targets_ ++ [(name, tgt)] }

/-- Modelled from the spec: addMovingTarget, as addMovingCamera. -/
def CeresBlocks.addMovingTarget (b : CeresBlocks) (name : String) (tgt : Nat)
    (scene_id : Int) : CeresBlocks :=
  if b.moving_targets_.any (fun e => e.1 == name && e.2.1 == scene_id) then b
  else { b with moving_targets_ := b.moving_targets_ ++ [(name, scene_id, tgt)] }

/-- Modelled from the spec: getCameraByName is a linear lookup by identity string
over the registered cameras, the static ones first. It returns the reference found
and the errors it raised. Failure mode: a miss yields the null reference and is
surfaced as a configuration error naming the camera looked up. -/
def CeresBlocks.getCameraByName (D : Type) (b : CeresBlocks) (name : String) :
    Option CameraPtr × List (Event D) :=
  match b.static_cameras_.find? (fun e => e.1 == name) with
  | some e => (some e.2, [])
  | none =>
    match b.moving_cameras_.find? (fun e => e.1 == name) with
    | some e => (some e.2.2, [])
    | none => (none, [Event.unresolvedReference name])

/-- Embedding of icalServiceNode::startCallBack. The body has no return statement.
The problem deleted when problem_initialized_ holds is the one P_ is overwritten
with a new one. -/
def startCallBack {D : Type} (self : icalServiceNode D) (res : TriggerResponse) :
    CallResult D TriggerResponse :=
  { ret := none
    node := { self with
      P_ := some (Problem.new D)
      problem_initialized_ := true
      total_observations_ := 0
      ceres_blocks_ := self.ceres_blocks_.clearCamerasTargets }
    res := res
    events := [] }

/-- The loop of observationCallBack over the observations of one camera,
for (int i = 0; i < num_observations; i++): the loop variable i, the observations
from index i on, and the problem. Inside the loop i is this variable, also in
all_cameras_[i] and in pts_[i]. -/
def addObservationCosts {D : Type} (all_cameras_ : List Camera) :
    Nat → List (Observation D) → Problem D → Problem D
  | _, [], P => P
  | i, o :: rest, P =>
    let target := o.target
    let image_x := o.image_loc_x
    let image_y := o.image_loc_y
    let point := target.pts_[i]?
    let cost_function : CostFunction D :=
      { ox := image_x, oy := image_y
        circle_diameter := target.circle_grid_parameters_.circle_diameter
        point := point }
    addObservationCosts all_cameras_ (i + 1) rest
      (P.AddResidualBlock
        { cost_function := cost_function
          intrinsics := (all_cameras_[i]?).map (fun c => c.camera_parameters_.pb_intrinsics)
          pose := target.pose_.pb_pose })

/-- The calls observationCallBack makes on the observer of camera i up to and
including getObservations. -/
def acquireEvents {D : Type} (nTargets : Nat) (reply : ObserverReply D) (i : Nat) (roi : Roi) :
    List (Event D) :=
  [Event.clearTargets i, Event.clearObservations i]
    ++ (List.range nTargets).map
        (fun j => Event.addTarget i j roi Cost_function.CameraReprjErrorWithDistortion)
    ++ [Event.triggerCamera i]
    ++ List.replicate reply.polls (Event.observationsDone i false)
    ++ [Event.observationsDone i true, Event.getObservations i,
        Event.rosInfo "Found %d observations"]

/-- Body of the camera loop of observationCallBack for camera i. The observer of
camera i answers env i. A null P_ stays null. -/
def observeCamera {D : Type} (env : Nat → ObserverReply D)
    (st : icalServiceNode D × List (Event D)) (ic : Nat × Camera) :
    icalServiceNode D × List (Event D) :=
  let self := st.1
  let i := ic.1
  let roi : Roi :=
    { x_min := 0, y_min := 0
      x_max := ic.2.camera_parameters_.width
      y_max := ic.2.camera_parameters_.height }
  let total_pts : Int := self.all_targets_.foldl (fun acc t => acc + t.num_points_) 0
  let camera_observations := (env i).observations
  let acquired := st.2 ++ acquireEvents self.all_targets_.length (env i) i roi
  let num_observations : Int := camera_observations.length
  if num_observations != total_pts then
    (self, acquired ++
      [Event.rosError "Target Locator could not find all targets found %d out of %d"])
  else
    ({ self with
        total_observations_ := self.total_observations_ + num_observations
        P_ := self.P_.map (addObservationCosts self.all_cameras_ 0 camera_observations) },
      acquired)

/-- Embedding of icalServiceNode::observationCallBack. After the camera loop the
body ends without a return statement. -/
def observationCallBack {D : Type} (env : Nat → ObserverReply D) (self : icalServiceNode D)
    (res : TriggerResponse) : CallResult D TriggerResponse :=
  if !self.problem_initialized_ then
    { ret := some false, node := self, res := res,
      events := [Event.rosError "must calll start service"] }
  else
    let out := self.all_cameras_.enum.foldl (observeCamera env) (self, [])
    { ret := none, node := out.1, res := res, events := out.2 }

/-- Embedding of icalServiceNode::saveCallBack. The body has no return statement. -/
def saveCallBack {D : Type} (self : icalServiceNode D) (res : TriggerResponse) :
    CallResult D TriggerResponse :=
  { ret := none, node := self, res := res,
    events := (List.range self.all_cameras_.length).map (fun i => Event.pushCameraInfo i) }

/-! ## init_blocks and the constructor -/

/-- First loop of init_blocks: one block per camera. -/
def registerCameras (cams : List Camera) (b : CeresBlocks) : CeresBlocks :=
  cams.enum.foldl
    (fun b ic =>
      if ic.2.is_moving_ then b.addMovingCamera ic.2.camera_name_ ic.1 0
      else b.addStaticCamera ic.2.camera_name_ ic.1)
    b

/-- Second loop of init_blocks: display and one block per target. -/
def registerTargets {D : Type} (tgts : List (Target D)) (b : CeresBlocks) :
    CeresBlocks × List (Event D) :=
  tgts.enum.foldl
    (fun st jt =>
      let shown := if jt.2.pub_rviz_vis_ then st.2 ++ [Event.displayRvizTarget jt.1] else st.2
      if jt.2.is_moving_ then (st.1.addMovingTarget jt.2.target_name_ jt.1 0, shown)
      else (st.1.addStaticTarget jt.2.target_name_ jt.1, shown))
    (b, [])

/-- Body of the third loop of init_blocks for one camera: the cameras already
visited and the events so far. A right stereo camera gets the result of
getCameraByName as its left camera, unchecked. -/
def linkStereo {D : Type} (b : CeresBlocks) (st : List Camera × List (Event D)) (c : Camera) :
    List Camera × List (Event D) :=
  if c.is_right_stereo_camera_ then
    let found := b.getCameraByName D c.left_stereo_camera_name_
    (st.1 ++ [{ c with left_stereo_camera_ := found.1 }], st.2 ++ found.2)
  else (st.1 ++ [c], st.2)

/-- Embedding of icalServiceNode::init_blocks, a void function: the node afterwards
and the calls it made. -/
def init_blocks {D : Type} (self : icalServiceNode D) : icalServiceNode D × List (Event D) :=
  let b1 := registerCameras self.all_cameras_ self.ceres_blocks_
  let b2 := registerTargets self.all_targets_ b1
  let linked := self.all_cameras_.foldl (linkStereo b2.1) ([], b2.2)
  ({ self with all_cameras_ := linked.1, ceres_blocks_ := b2.1 }, linked.2)

/-- The external parsers parseCameras and parseTargets on a fixed file: from the
list passed by reference to the success flag and the list afterwards. -/
abbrev Loader (α : Type) := List α → Bool × List α

/-- Embedding of icalServiceNode::load_camera. -/
def load_camera {D : Type} (parseCameras : Loader Camera) (self : icalServiceNode D) :
    Bool × icalServiceNode D × List (Event D) :=
  let r := parseCameras self.all_cameras_
  if !r.1 then
    (false, { self with all_cameras_ := r.2 }, [Event.rosError "failed to parse cameras from %s"])
  else (true, { self with all_cameras_ := r.2 }, [])

/-- Embedding of icalServiceNode::load_target. -/
def load_target {D : Type} (parseTargets : Loader (Target D)) (self : icalServiceNode D) :
    Bool × icalServiceNode D × List (Event D) :=
  let r := parseTargets self.all_targets_
  if !r.1 then
    (false, { self with all_targets_ := r.2 }, [Event.rosError "failed to parse targets from %s"])
  else (true, { self with all_targets_ := r.2 }, [])

/-- Embedding of the constructor of icalServiceNode, up to the advertising of the
services: the member initializers, the two checked loads, the two repeated loads
and init_blocks. -/
def construct {D : Type} (parseCameras : Loader Camera) (parseTargets : Loader (Target D)) :
    icalServiceNode D × List (Event D) :=
  let s0 : icalServiceNode D :=
    { all_cameras_ := [], all_targets_ := [], ceres_blocks_ := CeresBlocks.empty
      P_ := none, problem_initialized_ := false, total_observations_ := 0 }
  let e0 : List (Event D) :=
    [Event.rosInfo "yaml_file_path: %s", Event.rosInfo "camera_file: %s",
     Event.rosInfo "target_file: %s"]
  let c1 := load_camera parseCameras s0
  let e1 := e0 ++ c1.2.2 ++
    (if !c1.1 then [Event.rosError "can't load the camera from %s"] else [])
  let t1 := load_target parseTargets c1.2.1
  let e2 := e1 ++ t1.2.2 ++
    (if !t1.1 then [Event.rosError "can't load the target from %s"] else [])
  let c2 := load_camera parseCameras t1.2.1
  let t2 := load_target parseTargets c2.2.1
  let b := init_blocks t2.2.1
  (b.1, e2 ++ c2.2.2 ++ t2.2.2 ++ b.2)

/-! ## Sequences of service calls -/

/-- One service request, with what the external collaborators answer during it. -/
inductive Call (D : Type) where
  | start (res : TriggerResponse)
  | observation (env : Nat → ObserverReply D) (res : TriggerResponse)
  | run (Solve : SolverOracle D) (req : ical_srv_solveRequest D) (res : ical_srv_solveResponse D)
  | save (res : TriggerResponse)

/-- Whether the request is a Start. -/
def Call.isStart {D : Type} : Call D → Bool
  | Call.start _ => true
  | _ => false

/-- The node after serving one request. -/
def serve {D : Type} [DoubleOps D] (self : icalServiceNode D) : Call D → icalServiceNode D
  | Call.start res => (startCallBack self res).node
  | Call.observation env res => (observationCallBack env self res).node
  | Call.run Solve req res => (runCallBack Solve self req res).node
  | Call.save res => (saveCallBack self res).node

/-- The node after serving a sequence of requests, one after the other. -/
def serveAll {D : Type} [DoubleOps D] (self : icalServiceNode D) (calls : List (Call D)) :
    icalServiceNode D :=
  calls.foldl serve self

/-! ## The accounting the spec describes -/

/-- The expected number of observations of one camera: the sum of num_points_ over
the loaded targets. -/
def expectedPoints {D : Type} (tgts : List (Target D)) : Int :=
  (tgts.map (fun t => t.num_points_)).sum

/-- The sum of found over the cameras of one Collect-Observations call whose found
count equals the expected count. -/
def acceptedFound {D : Type} (nCameras : Nat) (tgts : List (Target D))
    (env : Nat → ObserverReply D) : Int :=
  ((List.range nCameras).map (fun i =>
    if ((env i).observations.length : Int) = expectedPoints tgts
    then ((env i).observations.length : Int) else 0)).sum

/-- What one request contributes to the observation count according to the spec. -/
def Call.collected {D : Type} (nCameras : Nat) (tgts : List (Target D)) : Call D → Int
  | Call.observation env _ => acceptedFound nCameras tgts env
  | _ => 0

/-- What camera i adds to the observation count in one call. -/
def foundIfExpected {D : Type} (tgts : List (Target D)) (env : Nat → ObserverReply D)
    (i : Nat) : Int :=
  if ((env i).observations.length : Int) = expectedPoints tgts
  then ((env i).observations.length : Int) else 0

/-- The invariant of the session: the observation count is not negative, an
initialized node has a problem whose number of residual blocks is the observation
count, and a node that is not initialized has counted nothing. -/
def SessionInv {D : Type} (s : icalServiceNode D) : Prop :=
  0 ≤ s.total_observations_ ∧
  (s.problem_initialized_ = true →
    ∃ p, s.P_ = some p ∧ (p.residual_blocks.length : Int) = s.total_observations_) ∧
  (s.problem_initialized_ = false → s.total_observations_ = 0)

/-! ## Concrete inputs -/

/-- A concrete node state used to instantiate the theorems: initialized, two
observations counted, an empty camera and target list. -/
def sampleNode : icalServiceNode ℚ :=
  { all_cameras_ := [], all_targets_ := [], ceres_blocks_ := CeresBlocks.empty
    P_ := some (Problem.new ℚ), problem_initialized_ := true, total_observations_ := 2 }

/-- A solver answer: termination type and raw final cost, initial cost 10. -/
def sampleSolve (t : TerminationType) (final : ℚ) : SolverOracle ℚ :=
  fun _ _ => { termination_type := t, initial_cost := 10, final_cost := final }

/-- A static camera named name whose intrinsic block is at address pb. -/
def sampleCamera (name : String) (pb : BlockPtr) : Camera :=
  { camera_name_ := name, is_moving_ := false, is_right_stereo_camera_ := false
    left_stereo_camera_name_ := "", left_stereo_camera_ := none
    camera_parameters_ := { width := 640, height := 480, pb_intrinsics := pb } }

/-- A static target with n points (k, 0, 0) for k below n, circle diameter 1 and its
pose block at address 300. -/
def sampleTarget (n : Nat) : Target ℚ :=
  { target_name_ := "grid", is_moving_ := false, pub_rviz_vis_ := false
    num_points_ := n
    pts_ := (List.range n).map (fun k => { x := (k : ℚ), y := 0, z := 0 })
    circle_grid_parameters_ := { circle_diameter := 1 }
    pose_ := { pb_pose := 300 } }

/-- The observation of point k of a target at image location (10 + k, 20). -/
def sampleObservation (t : Target ℚ) (k : Nat) : Observation ℚ :=
  { target := t, point_id := k, image_loc_x := ((10 + k : Nat) : ℚ), image_loc_y := 20 }

/-- A node just after Start with the given cameras and targets. -/
def startedNode (cams : List Camera) (tgts : List (Target ℚ)) : icalServiceNode ℚ :=
  { all_cameras_ := cams, all_targets_ := tgts, ceres_blocks_ := CeresBlocks.empty
    P_ := some (Problem.new ℚ), problem_initialized_ := true, total_observations_ := 0 }

/-- Two cameras and one target of two points: the observer of camera 0 finds one
point only, the observer of camera 1 finds both points. -/
def mismatchEnv : Nat → ObserverReply ℚ
  | 1 => { polls := 0
           observations := [sampleObservation (sampleTarget 2) 0,
                            sampleObservation (sampleTarget 2) 1] }
  | _ => { polls := 0, observations := [sampleObservation (sampleTarget 2) 0] }

/-- One camera and one target of two points: the observer finds both points, in order. -/
def twoPointEnv : Nat → ObserverReply ℚ :=
  fun _ => { polls := 0
             observations := [sampleObservation (sampleTarget 2) 0,
                              sampleObservation (sampleTarget 2) 1] }

/-- A right stereo camera named right whose left camera is named left. -/
def rightCamera : Camera :=
  { camera_name_ := "right", is_moving_ := false, is_right_stereo_camera_ := true
    left_stereo_camera_name_ := "left", left_stereo_camera_ := none
    camera_parameters_ := { width := 640, height := 480, pb_intrinsics := 200 } }

/-- A node as the loads of the constructor leave it, before init_blocks. -/
def loadedNode (cams : List Camera) (tgts : List (Target ℚ)) : icalServiceNode ℚ :=
  { all_cameras_ := cams, all_targets_ := tgts, ceres_blocks_ := CeresBlocks.empty
    P_ := none, problem_initialized_ := false, total_observations_ := 0 }

/-- A session after Start: a collection, a solve, a save and a second collection. -/
def sampleCalls : List (Call ℚ) :=
  [Call.observation mismatchEnv { success := false, message := "" },
   Call.run (sampleSolve TerminationType.CONVERGENCE 0)
     { allowable_cost_per_observation := 3 } { final_cost_per_observation := 0 },
   Call.save { success := false, message := "" },
   Call.observation mismatchEnv { success := false, message := "" }]

/-- The camera the third loop of init_blocks leaves in place of c. -/
def linkedCamera (D : Type) (b : CeresBlocks) (c : Camera) : Camera :=
  if c.is_right_stereo_camera_ then
    { c with left_stereo_camera_ := (b.getCameraByName D c.left_stereo_camera_name_).1 }
  else c

/-- The events the third loop of init_blocks adds for camera c. -/
def lookupEvents (D : Type) (b : CeresBlocks) (c : Camera) : List (Event D) :=
  if c.is_right_stereo_camera_ then (b.getCameraByName D c.left_stereo_camera_name_).2
  else []

/-- The registry holds an entry for the camera name. -/
def CeresBlocks.hasCamera (b : CeresBlocks) (name : String) : Prop :=
  (∃ e ∈ b.static_cameras_, e.1 = name) ∨ (∃ e ∈ b.moving_cameras_, e.1 = name)

/-- Every camera entry of the registry refers to a camera of the list that bears
the name the entry is keyed by. -/
def CeresBlocks.refersInto (b : CeresBlocks) (cams : List Camera) : Prop :=
  (∀ e ∈ b.static_cameras_, ∃ c, cams[e.2]? = some c ∧ c.camera_name_ = e.1) ∧
  (∀ e ∈ b.moving_cameras_, ∃ c, cams[e.2.2]? = some c ∧ c.camera_name_ = e.1)

/-! ## Theorems -/

/-! ### Lemmas on the callbacks -/

theorem runCallBack_node {D : Type} [DoubleOps D] (Solve : SolverOracle D)
    (self : icalServiceNode D) (req : ical_srv_solveRequest D) (res : ical_srv_solveResponse D) :
    (runCallBack Solve self req res).node = self := by
  unfold runCallBack
  split
  · rfl
  · split
    · rfl
    · simp only []
      split
      · split <;> rfl
      · rfl

theorem foldl_num_points {D : Type} (tgts : List (Target D)) (a : Int) :
    tgts.foldl (fun acc t => acc + t.num_points_) a = a + expectedPoints tgts := by
  induction tgts generalizing a with
  | nil => simp [expectedPoints]
  | cons t ts ih =>
    simp only [List.foldl_cons, ih]
    simp [expectedPoints]
    omega

theorem addObservationCosts_length {D : Type} (cams : List Camera) (obs : List (Observation D))
    (i : Nat) (P : Problem D) :
    (addObservationCosts cams i obs P).residual_blocks.length =
      P.residual_blocks.length + obs.length := by
  induction obs generalizing i P with
  | nil => simp [addObservationCosts]
  | cons o rest ih =>
    simp only [addObservationCosts, ih, Problem.AddResidualBlock, List.length_append,
      List.length_cons, List.length_nil]
    omega

theorem foundIfExpected_nonneg {D : Type} (tgts : List (Target D))
    (env : Nat → ObserverReply D) (i : Nat) : 0 ≤ foundIfExpected tgts env i := by
  unfold foundIfExpected
  split <;> omega

theorem observeCamera_frame {D : Type} (env : Nat → ObserverReply D)
    (st : icalServiceNode D × List (Event D)) (ic : Nat × Camera) :
    (observeCamera env st ic).1.all_cameras_ = st.1.all_cameras_ ∧
    (observeCamera env st ic).1.all_targets_ = st.1.all_targets_ ∧
    (observeCamera env st ic).1.problem_initialized_ = st.1.problem_initialized_ ∧
    (observeCamera env st ic).1.total_observations_ =
      st.1.total_observations_ + foundIfExpected st.1.all_targets_ env ic.1 := by
  unfold observeCamera foundIfExpected
  simp only [foldl_num_points, zero_add, bne_iff_ne, ne_eq, ite_not]
  split <;> simp

theorem observeCamera_residuals {D : Type} (env : Nat → ObserverReply D)
    (st : icalServiceNode D × List (Event D)) (ic : Nat × Camera) (p : Problem D)
    (hp : st.1.P_ = some p) :
    ∃ q, (observeCamera env st ic).1.P_ = some q ∧
      (q.residual_blocks.length : Int) =
        p.residual_blocks.length + foundIfExpected st.1.all_targets_ env ic.1 := by
  unfold observeCamera foundIfExpected
  simp only [foldl_num_points, zero_add, bne_iff_ne, ne_eq, ite_not]
  split
  · simp [hp, addObservationCosts_length]
  · simp [hp]

theorem observeLoop_frame {D : Type} (env : Nat → ObserverReply D) (l : List Camera) (n : Nat)
    (st : icalServiceNode D × List (Event D)) :
    ((List.enumFrom n l).foldl (observeCamera env) st).1.all_cameras_ = st.1.all_cameras_ ∧
    ((List.enumFrom n l).foldl (observeCamera env) st).1.all_targets_ = st.1.all_targets_ ∧
    ((List.enumFrom n l).foldl (observeCamera env) st).1.problem_initialized_
      = st.1.problem_initialized_ ∧
    ((List.enumFrom n l).foldl (observeCamera env) st).1.total_observations_ =
      st.1.total_observations_ +
        ((List.range' n l.length).map (foundIfExpected st.1.all_targets_ env)).sum := by
  induction l generalizing n st with
  | nil => simp
  | cons c cs ih =>
    obtain ⟨h1, h2, h3, h4⟩ := observeCamera_frame env st (n, c)
    obtain ⟨k1, k2, k3, k4⟩ := ih (n + 1) (observeCamera env st (n, c))
    simp only [List.enumFrom_cons, List.foldl_cons, List.length_cons, List.range'_succ,
      List.map_cons, List.sum_cons]
    have h4n : (observeCamera env st (n, c)).1.total_observations_ =
        st.1.total_observations_ + foundIfExpected st.1.all_targets_ env n := h4
    refine ⟨k1.trans h1, k2.trans h2, k3.trans h3, ?_⟩
    rw [k4, h4n, h2]
    omega

theorem observeLoop_residuals {D : Type} (env : Nat → ObserverReply D) (l : List Camera)
    (n : Nat) (st : icalServiceNode D × List (Event D)) (p : Problem D)
    (hp : st.1.P_ = some p) :
    ∃ q, ((List.enumFrom n l).foldl (observeCamera env) st).1.P_ = some q ∧
      (q.residual_blocks.length : Int) = p.residual_blocks.length +
        ((List.range' n l.length).map (foundIfExpected st.1.all_targets_ env)).sum := by
  induction l generalizing n st p with
  | nil => exact ⟨p, by simpa using hp, by simp⟩
  | cons c cs ih =>
    obtain ⟨q1, hq1, hlen1⟩ := observeCamera_residuals env st (n, c) p hp
    obtain ⟨_, h2, _, _⟩ := observeCamera_frame env st (n, c)
    obtain ⟨q, hq, hlen⟩ := ih (n + 1) (observeCamera env st (n, c)) q1 hq1
    have hlen1n : (q1.residual_blocks.length : Int) =
        p.residual_blocks.length + foundIfExpected st.1.all_targets_ env n := hlen1
    refine ⟨q, by simpa using hq, ?_⟩
    simp only [List.length_cons, List.range'_succ, List.map_cons, List.sum_cons]
    rw [h2] at hlen
    rw [hlen, hlen1n]
    omega

theorem sum_foundIfExpected_nonneg {D : Type} (tgts : List (Target D))
    (env : Nat → ObserverReply D) (l : List Nat) :
    0 ≤ (l.map (foundIfExpected tgts env)).sum := by
  induction l with
  | nil => simp
  | cons i is ih =>
    have := foundIfExpected_nonneg tgts env i
    simp only [List.map_cons, List.sum_cons]
    omega

theorem acceptedFound_eq {D : Type} (nCameras : Nat) (tgts : List (Target D))
    (env : Nat → ObserverReply D) :
    acceptedFound nCameras tgts env =
      ((List.range' 0 nCameras).map (foundIfExpected tgts env)).sum := by
  unfold acceptedFound
  rw [List.range_eq_range']
  rfl

theorem observationCallBack_node_unstarted {D : Type} (env : Nat → ObserverReply D)
    (self : icalServiceNode D) (res : TriggerResponse)
    (h : self.problem_initialized_ = false) :
    (observationCallBack env self res).node = self := by
  unfold observationCallBack
  simp [h]

theorem observationCallBack_started {D : Type} (env : Nat → ObserverReply D)
    (self : icalServiceNode D) (res : TriggerResponse) (h : self.problem_initialized_ = true) :
    (observationCallBack env self res).node.all_cameras_ = self.all_cameras_ ∧
    (observationCallBack env self res).node.all_targets_ = self.all_targets_ ∧
    (observationCallBack env self res).node.problem_initialized_ = true ∧
    (observationCallBack env self res).node.total_observations_ =
      self.total_observations_ + acceptedFound self.all_cameras_.length self.all_targets_ env ∧
    (∀ p, self.P_ = some p → ∃ q, (observationCallBack env self res).node.P_ = some q ∧
      (q.residual_blocks.length : Int) = p.residual_blocks.length +
        acceptedFound self.all_cameras_.length self.all_targets_ env) := by
  obtain ⟨h1, h2, h3, h4⟩ := observeLoop_frame env self.all_cameras_ 0 (self, [])
  have hnode : (observationCallBack env self res).node =
      ((List.enumFrom 0 self.all_cameras_).foldl (observeCamera env) (self, [])).1 := by
    unfold observationCallBack
    simp [h, List.enum]
  rw [hnode, acceptedFound_eq]
  refine ⟨h1, h2, h3.trans h, h4, ?_⟩
  intro p hp
  exact observeLoop_residuals env self.all_cameras_ 0 (self, []) p hp

/-- C1: with the problem initialized and a positive observation count, for every
solver summary whose termination type is not NO_CONVERGENCE and every threshold,
the divisor is nonzero and runCallBack returns true exactly when
final_cost / total_observations_ is at most the threshold. -/
theorem runCallBack_accepts_iff {D : Type} [DoubleOps D] (Solve : SolverOracle D)
    (self : icalServiceNode D) (req : ical_srv_solveRequest D) (res : ical_srv_solveResponse D)
    (hinit : self.problem_initialized_ = true) (hobs : 0 < self.total_observations_)
    (hterm : (Solve runOptions self.P_).termination_type ≠ TerminationType.NO_CONVERGENCE) :
    self.total_observations_ ≠ 0 ∧
    ((runCallBack Solve self req res).ret = some true ↔
      DoubleOps.le
        (DoubleOps.div (Solve runOptions self.P_).final_cost
          (DoubleOps.ofInt self.total_observations_))
        req.allowable_cost_per_observation = true) := by
  have hne : self.total_observations_ ≠ 0 := by omega
  refine ⟨hne, ?_⟩
  unfold runCallBack
  simp only [hinit, hne, hterm, Bool.not_true, beq_iff_eq, bne_iff_ne, ne_eq,
    not_false_eq_true, if_true, if_false, Bool.false_eq_true]
  split <;> simp_all

/-- Instance of runCallBack_accepts_iff: two observations, raw final cost 6, threshold 3. -/
theorem runCallBack_accepts_iff_witness :
    sampleNode.total_observations_ ≠ 0 ∧
    ((runCallBack (sampleSolve TerminationType.CONVERGENCE 6) sampleNode
        { allowable_cost_per_observation := 3 } { final_cost_per_observation := 0 }).ret
        = some true ↔
      DoubleOps.le
        (DoubleOps.div
          ((sampleSolve TerminationType.CONVERGENCE 6) runOptions sampleNode.P_).final_cost
          (DoubleOps.ofInt sampleNode.total_observations_))
        (3 : ℚ) = true) :=
  runCallBack_accepts_iff (sampleSolve TerminationType.CONVERGENCE 6) sampleNode
    { allowable_cost_per_observation := 3 } { final_cost_per_observation := 0 }
    rfl (by decide) (by decide)

/-- C2: when the problem is not initialized or no observation has been counted,
runCallBack returns false for every request, makes no call of the solver, and
leaves the problem, problem_initialized_ and total_observations_ (the whole node)
and the response as they were. -/
theorem runCallBack_gated {D : Type} [DoubleOps D] (Solve : SolverOracle D)
    (self : icalServiceNode D) (req : ical_srv_solveRequest D) (res : ical_srv_solveResponse D)
    (h : self.problem_initialized_ = false ∨ self.total_observations_ = 0) :
    (runCallBack Solve self req res).ret = some false ∧
    (∀ e ∈ (runCallBack Solve self req res).events, e.isSolve = false) ∧
    (runCallBack Solve self req res).node.P_ = self.P_ ∧
    (runCallBack Solve self req res).node.problem_initialized_ = self.problem_initialized_ ∧
    (runCallBack Solve self req res).node.total_observations_ = self.total_observations_ ∧
    (runCallBack Solve self req res).node = self ∧
    (runCallBack Solve self req res).res = res := by
  unfold runCallBack
  rcases h with h | h
  · simp [h, Event.isSolve]
  · cases hp : self.problem_initialized_ <;> simp [h, hp, Event.isSolve]

/-- Instance of runCallBack_gated: an initialized node with no observation. -/
theorem runCallBack_gated_witness :
    (runCallBack (sampleSolve TerminationType.CONVERGENCE 0)
        { sampleNode with total_observations_ := 0 }
        { allowable_cost_per_observation := 3 } { final_cost_per_observation := 0 }).ret
      = some false :=
  (runCallBack_gated (sampleSolve TerminationType.CONVERGENCE 0)
    { sampleNode with total_observations_ := 0 }
    { allowable_cost_per_observation := 3 } { final_cost_per_observation := 0 }
    (Or.inr rfl)).1

/-- C3: when Start has never been called (problem_initialized_ is false),
observationCallBack returns false, makes no call on any camera observer (its only
event is the error message), adds no residual (P_ is unchanged) and leaves
total_observations_ and problem_initialized_ (the whole node) unchanged. -/
theorem observationCallBack_before_start {D : Type} (env : Nat → ObserverReply D)
    (self : icalServiceNode D) (res : TriggerResponse)
    (h : self.problem_initialized_ = false) :
    (observationCallBack env self res).ret = some false ∧
    (observationCallBack env self res).events = [Event.rosError "must calll start service"] ∧
    (observationCallBack env self res).node.P_ = self.P_ ∧
    (observationCallBack env self res).node.total_observations_ = self.total_observations_ ∧
    (observationCallBack env self res).node.problem_initialized_ = false ∧
    (observationCallBack env self res).node = self := by
  unfold observationCallBack
  simp [h]

/-- Instance of observationCallBack_before_start: the node as the member
initializers of the constructor leave it, with one camera. -/
theorem observationCallBack_before_start_witness :
    (observationCallBack (fun _ => { polls := 0, observations := [] })
      ({ all_cameras_ := [{ camera_name_ := "cam", is_moving_ := false,
                            is_right_stereo_camera_ := false, left_stereo_camera_name_ := "",
                            left_stereo_camera_ := none,
                            camera_parameters_ := { width := 640, height := 480,
                                                    pb_intrinsics := 100 } }],
         all_targets_ := [], ceres_blocks_ := CeresBlocks.empty, P_ := none,
         problem_initialized_ := false, total_observations_ := 0 } : icalServiceNode ℚ)
      { success := false, message := "" }).ret = some false :=
  (observationCallBack_before_start _ _ _ rfl).1

/-- C8: with the problem initialized and a positive observation count, a summary
with termination type NO_CONVERGENCE makes runCallBack return false for every
threshold and leaves the response untouched; with any other termination type
the returned value is the outcome of the acceptance test and no convergence
error is logged. -/
theorem runCallBack_convergence_policy {D : Type} [DoubleOps D] (Solve : SolverOracle D)
    (self : icalServiceNode D) (req : ical_srv_solveRequest D) (res : ical_srv_solveResponse D)
    (hinit : self.problem_initialized_ = true) (hobs : 0 < self.total_observations_) :
    ((Solve runOptions self.P_).termination_type = TerminationType.NO_CONVERGENCE →
      (runCallBack Solve self req res).ret = some false ∧
      (runCallBack Solve self req res).res = res ∧
      Event.rosError "NO CONVERGENCE" ∈ (runCallBack Solve self req res).events) ∧
    ((Solve runOptions self.P_).termination_type ≠ TerminationType.NO_CONVERGENCE →
      (runCallBack Solve self req res).ret =
        some (DoubleOps.le
          (DoubleOps.div (Solve runOptions self.P_).final_cost
            (DoubleOps.ofInt self.total_observations_))
          req.allowable_cost_per_observation) ∧
      Event.rosError "NO CONVERGENCE" ∉ (runCallBack Solve self req res).events) := by
  have hne : self.total_observations_ ≠ 0 := by omega
  constructor
  · intro hterm
    unfold runCallBack
    simp [hinit, hne, hterm]
  · intro hterm
    unfold runCallBack
    simp only [hinit, hne, hterm, Bool.not_true, beq_iff_eq, bne_iff_ne, ne_eq,
      not_false_eq_true, if_true, if_false, Bool.false_eq_true]
    split <;> simp_all [cameraReport]

/-- Instance of runCallBack_convergence_policy: NO_CONVERGENCE with raw final cost 0
and threshold 3 is still a failure. -/
theorem runCallBack_convergence_policy_witness :
    (runCallBack (sampleSolve TerminationType.NO_CONVERGENCE 0) sampleNode
        { allowable_cost_per_observation := 3 } { final_cost_per_observation := 0 }).ret
      = some false :=
  ((runCallBack_convergence_policy (sampleSolve TerminationType.NO_CONVERGENCE 0) sampleNode
    { allowable_cost_per_observation := 3 } { final_cost_per_observation := 0 }
    rfl (by decide)).1 rfl).1

/-- C4: evaluation of observationCallBack on two cameras and one target of two
points, where camera 0 finds one point (a mismatch) and camera 1 finds both. Of the
two residuals added for the observations of camera 1, the first is bound to the
intrinsic block of the rejected camera 0 (address 100), not to that of camera 1
(address 200): the inner loop variable i, here 0, indexes all_cameras_. -/
theorem observationCallBack_mismatch_camera_bound :
    ((mismatchEnv 0).observations.length : Int) ≠ expectedPoints [sampleTarget 2] ∧
    ((mismatchEnv 1).observations.length : Int) = expectedPoints [sampleTarget 2] ∧
    (observationCallBack mismatchEnv
      (startedNode [sampleCamera "cam0" 100, sampleCamera "cam1" 200] [sampleTarget 2])
      { success := false, message := "" }).node.P_ =
      some { residual_blocks :=
        [{ cost_function := { ox := 10, oy := 20, circle_diameter := 1,
                              point := some { x := 0, y := 0, z := 0 } }
           intrinsics := some (sampleCamera "cam0" 100).camera_parameters_.pb_intrinsics
           pose := 300 },
         { cost_function := { ox := 11, oy := 20, circle_diameter := 1,
                              point := some { x := 1, y := 0, z := 0 } }
           intrinsics := some (sampleCamera "cam1" 200).camera_parameters_.pb_intrinsics
           pose := 300 }] } := by
  decide

/-- C5: evaluation of observationCallBack on one camera and one target of two
points, both found. Two residuals are added; the second one, for observation 1,
reads all_cameras_[1] outside the one-element camera list, so it is not bound to
the intrinsic block of camera 0 (address 100). -/
theorem observationCallBack_residual_binding :
    ((twoPointEnv 0).observations.length : Int) = expectedPoints [sampleTarget 2] ∧
    (observationCallBack twoPointEnv
      (startedNode [sampleCamera "cam0" 100] [sampleTarget 2])
      { success := false, message := "" }).node.P_ =
      some { residual_blocks :=
        [{ cost_function := { ox := 10, oy := 20, circle_diameter := 1,
                              point := some { x := 0, y := 0, z := 0 } }
           intrinsics := some 100
           pose := 300 },
         { cost_function := { ox := 11, oy := 20, circle_diameter := 1,
                              point := some { x := 1, y := 0, z := 0 } }
           intrinsics := none
           pose := 300 }] } := by
  decide

/-- C7: from every node state startCallBack leaves the node initialized with a new
problem without residuals and a zero observation count, and a Run right after
it returns false; but startCallBack itself returns no value to its caller (its
body has no return statement) and leaves the success flag of the response as it
was. -/
theorem startCallBack_resets_without_status {D : Type} [DoubleOps D]
    (self : icalServiceNode D) (res : TriggerResponse) :
    (startCallBack self res).ret = none ∧
    (startCallBack self res).res.success = res.success ∧
    (startCallBack self res).node.problem_initialized_ = true ∧
    (startCallBack self res).node.P_ = some { residual_blocks := [] } ∧
    (startCallBack self res).node.total_observations_ = 0 ∧
    (∀ (Solve : SolverOracle D) (req : ical_srv_solveRequest D)
        (r : ical_srv_solveResponse D),
      (runCallBack Solve (startCallBack self res).node req r).ret = some false) := by
  refine ⟨rfl, rfl, rfl, rfl, rfl, ?_⟩
  intro Solve req r
  simp [runCallBack, startCallBack]

/-! ### Lemmas on sequences of calls -/

theorem acceptedFound_nonneg {D : Type} (nCameras : Nat) (tgts : List (Target D))
    (env : Nat → ObserverReply D) : 0 ≤ acceptedFound nCameras tgts env := by
  rw [acceptedFound_eq]
  exact sum_foundIfExpected_nonneg tgts env _

theorem collected_nonneg {D : Type} (nCameras : Nat) (tgts : List (Target D)) (c : Call D) :
    0 ≤ c.collected nCameras tgts := by
  cases c <;> simp [Call.collected, acceptedFound_nonneg]

theorem serve_after_start {D : Type} [DoubleOps D] (s : icalServiceNode D) (c : Call D)
    (hinit : s.problem_initialized_ = true) (hc : c.isStart = false) :
    (serve s c).all_cameras_ = s.all_cameras_ ∧
    (serve s c).all_targets_ = s.all_targets_ ∧
    (serve s c).problem_initialized_ = true ∧
    (serve s c).total_observations_ =
      s.total_observations_ + c.collected s.all_cameras_.length s.all_targets_ := by
  cases c with
  | start res => simp [Call.isStart] at hc
  | observation env res =>
    obtain ⟨h1, h2, h3, h4, _⟩ := observationCallBack_started env s res hinit
    exact ⟨h1, h2, h3, h4⟩
  | run Solve req res => simp [serve, runCallBack_node, Call.collected, hinit]
  | save res => simp [serve, saveCallBack, Call.collected, hinit]

theorem serveAll_after_start {D : Type} [DoubleOps D] (calls : List (Call D))
    (s : icalServiceNode D) (hinit : s.problem_initialized_ = true)
    (hcalls : ∀ c ∈ calls, c.isStart = false) :
    (serveAll s calls).all_cameras_ = s.all_cameras_ ∧
    (serveAll s calls).all_targets_ = s.all_targets_ ∧
    (serveAll s calls).problem_initialized_ = true ∧
    (serveAll s calls).total_observations_ =
      s.total_observations_ +
        (calls.map (Call.collected s.all_cameras_.length s.all_targets_)).sum := by
  induction calls generalizing s with
  | nil => simp [serveAll, hinit]
  | cons c cs ih =>
    obtain ⟨h1, h2, h3, h4⟩ :=
      serve_after_start s c hinit (hcalls c (List.mem_cons_self c cs))
    obtain ⟨k1, k2, k3, k4⟩ :=
      ih (serve s c) h3 (fun d hd => hcalls d (List.mem_cons_of_mem c hd))
    have hstep : serveAll s (c :: cs) = serveAll (serve s c) cs := rfl
    rw [hstep]
    refine ⟨k1.trans h1, k2.trans h2, k3, ?_⟩
    rw [k4, h4, h1, h2]
    simp only [List.map_cons, List.sum_cons]
    omega

theorem serve_inv {D : Type} [DoubleOps D] (s : icalServiceNode D) (c : Call D)
    (h : SessionInv s) : SessionInv (serve s c) := by
  cases c with
  | start res =>
    refine ⟨le_refl _, fun _ => ⟨Problem.new D, rfl, rfl⟩, fun hf => ?_⟩
    simp [serve, startCallBack]
  | observation env res =>
    cases hinit : s.problem_initialized_ with
    | false =>
      have hnode : serve s (Call.observation env res) = s :=
        observationCallBack_node_unstarted env s res hinit
      rw [hnode]
      exact h
    | true =>
      obtain ⟨h0, hp, _⟩ := h
      obtain ⟨p, hP, hlen⟩ := hp hinit
      obtain ⟨_, _, k3, k4, k5⟩ := observationCallBack_started env s res hinit
      obtain ⟨q, hq, hqlen⟩ := k5 p hP
      have hacc := acceptedFound_nonneg s.all_cameras_.length s.all_targets_ env
      refine ⟨?_, fun _ => ⟨q, hq, ?_⟩, fun hf => ?_⟩
      · show 0 ≤ (observationCallBack env s res).node.total_observations_
        rw [k4]
        omega
      · show (q.residual_blocks.length : Int) =
          (observationCallBack env s res).node.total_observations_
        rw [k4, hqlen, hlen]
      · have hcontra : (observationCallBack env s res).node.problem_initialized_ = false := hf
        rw [k3] at hcontra
        cases hcontra
  | run Solve req res =>
    have hnode : serve s (Call.run Solve req res) = s := runCallBack_node Solve s req res
    rw [hnode]
    exact h
  | save res => exact h

theorem serveAll_inv {D : Type} [DoubleOps D] (calls : List (Call D)) (s : icalServiceNode D)
    (h : SessionInv s) : SessionInv (serveAll s calls) := by
  induction calls generalizing s with
  | nil => exact h
  | cons c cs ih => exact ih (serve s c) (serve_inv s c h)

theorem construct_inv {D : Type} (parseCameras : Loader Camera)
    (parseTargets : Loader (Target D)) :
    SessionInv (construct parseCameras parseTargets).1 := by
  have h : (construct parseCameras parseTargets).1.problem_initialized_ = false ∧
      (construct parseCameras parseTargets).1.total_observations_ = 0 := by
    unfold construct init_blocks load_camera load_target
    constructor <;> (simp only []; repeat' split) <;> rfl
  refine ⟨by omega, fun hi => ?_, fun _ => h.2⟩
  rw [h.1] at hi
  cases hi

/-- C6: after startCallBack, for every sequence of Collect-Observations, Run and
Save requests, total_observations_ equals the sum, over the Collect-Observations
requests and the cameras whose found count equals the expected count, of found;
one more such request never lowers it, and a further startCallBack sets it to 0. -/
theorem total_observations_accounting {D : Type} [DoubleOps D] (self : icalServiceNode D)
    (res0 : TriggerResponse) (calls : List (Call D))
    (hcalls : ∀ c ∈ calls, c.isStart = false) :
    (serveAll (startCallBack self res0).node calls).total_observations_ =
      (calls.map (Call.collected self.all_cameras_.length self.all_targets_)).sum ∧
    (∀ c : Call D, c.isStart = false →
      (serveAll (startCallBack self res0).node calls).total_observations_ ≤
        (serveAll (startCallBack self res0).node (calls ++ [c])).total_observations_) ∧
    (∀ res : TriggerResponse,
      (startCallBack (serveAll (startCallBack self res0).node calls)
        res).node.total_observations_ = 0) := by
  obtain ⟨h1, h2, h3, h4⟩ :=
    serveAll_after_start calls (startCallBack self res0).node rfl hcalls
  refine ⟨?_, ?_, fun _ => rfl⟩
  · rw [h4]
    show (0 : Int) + _ = _
    rw [zero_add]
    rfl
  · intro c hc
    have happ : serveAll (startCallBack self res0).node (calls ++ [c]) =
        serve (serveAll (startCallBack self res0).node calls) c := by
      simp [serveAll]
    obtain ⟨_, _, _, k4⟩ :=
      serve_after_start (serveAll (startCallBack self res0).node calls) c h3 hc
    rw [happ, k4]
    have := collected_nonneg
      (serveAll (startCallBack self res0).node calls).all_cameras_.length
      (serveAll (startCallBack self res0).node calls).all_targets_ c
    omega

/-- C10: in every state reached from the constructor by any sequence of Start,
Collect-Observations, Run and Save requests, an initialized node has a problem whose
number of residual blocks equals total_observations_, a positive
total_observations_ implies problem_initialized_, and total_observations_ is not
negative. -/
theorem session_invariant {D : Type} [DoubleOps D] (parseCameras : Loader Camera)
    (parseTargets : Loader (Target D)) (calls : List (Call D)) :
    ((serveAll (construct parseCameras parseTargets).1 calls).problem_initialized_ = true →
      ∃ p, (serveAll (construct parseCameras parseTargets).1 calls).P_ = some p ∧
        (p.residual_blocks.length : Int) =
          (serveAll (construct parseCameras parseTargets).1 calls).total_observations_) ∧
    (0 < (serveAll (construct parseCameras parseTargets).1 calls).total_observations_ →
      (serveAll (construct parseCameras parseTargets).1 calls).problem_initialized_ = true) ∧
    0 ≤ (serveAll (construct parseCameras parseTargets).1 calls).total_observations_ := by
  obtain ⟨h0, h1, h2⟩ :=
    serveAll_inv calls _ (construct_inv parseCameras parseTargets)
  refine ⟨h1, fun hpos => ?_, h0⟩
  cases hinit : (serveAll (construct parseCameras parseTargets).1 calls).problem_initialized_
  · have := h2 hinit
    omega
  · rfl

/-- Instance of total_observations_accounting: two cameras, camera 1 accepted in each
of two collections. -/
theorem total_observations_accounting_witness :
    (serveAll (startCallBack
        (loadedNode [sampleCamera "cam0" 100, sampleCamera "cam1" 200] [sampleTarget 2])
        { success := false, message := "" }).node sampleCalls).total_observations_ =
      (sampleCalls.map (Call.collected 2 [sampleTarget 2])).sum :=
  (total_observations_accounting
    (loadedNode [sampleCamera "cam0" 100, sampleCamera "cam1" 200] [sampleTarget 2])
    { success := false, message := "" } sampleCalls
    (by intro c hc; simp [sampleCalls] at hc; rcases hc with h | h | h | h <;> rw [h] <;> rfl)).1

/-! ### Lemmas on the registry and init_blocks -/

theorem addStaticCamera_hasCamera (b : CeresBlocks) (name : String) (cam : CameraPtr) :
    (b.addStaticCamera name cam).hasCamera name := by
  unfold CeresBlocks.addStaticCamera
  split
  · rename_i h
    obtain ⟨e, he, hn⟩ := List.any_eq_true.mp h
    exact Or.inl ⟨e, he, by simpa using hn⟩
  · exact Or.inl ⟨(name, cam), by simp, rfl⟩

theorem addMovingCamera_hasCamera (b : CeresBlocks) (name : String) (cam : CameraPtr)
    (scene_id : Int) : (b.addMovingCamera name cam scene_id).hasCamera name := by
  unfold CeresBlocks.addMovingCamera
  split
  · rename_i h
    obtain ⟨e, he, hn⟩ := List.any_eq_true.mp h
    simp only [Bool.and_eq_true, beq_iff_eq] at hn
    exact Or.inr ⟨e, he, hn.1⟩
  · exact Or.inr ⟨(name, scene_id, cam), by simp, rfl⟩

theorem addStaticCamera_mono (b : CeresBlocks) (name : String) (cam : CameraPtr) (n : String)
    (h : b.hasCamera n) : (b.addStaticCamera name cam).hasCamera n := by
  unfold CeresBlocks.addStaticCamera
  split
  · exact h
  · rcases h with ⟨e, he, hn⟩ | ⟨e, he, hn⟩
    · exact Or.inl ⟨e, by simp [he], hn⟩
    · exact Or.inr ⟨e, he, hn⟩

theorem addMovingCamera_mono (b : CeresBlocks) (name : String) (cam : CameraPtr)
    (scene_id : Int) (n : String) (h : b.hasCamera n) :
    (b.addMovingCamera name cam scene_id).hasCamera n := by
  unfold CeresBlocks.addMovingCamera
  split
  · exact h
  · rcases h with ⟨e, he, hn⟩ | ⟨e, he, hn⟩
    · exact Or.inl ⟨e, he, hn⟩
    · exact Or.inr ⟨e, by simp [he], hn⟩

theorem addStaticCamera_refersInto (b : CeresBlocks) (cams : List Camera) (i : Nat)
    (c : Camera) (hc : cams[i]? = some c) (h : b.refersInto cams) :
    (b.addStaticCamera c.camera_name_ i).refersInto cams := by
  unfold CeresBlocks.addStaticCamera
  split
  · exact h
  · refine ⟨fun e he => ?_, h.2⟩
    simp only [List.mem_append, List.mem_singleton] at he
    rcases he with he | he
    · exact h.1 e he
    · subst he
      exact ⟨c, hc, rfl⟩

theorem addMovingCamera_refersInto (b : CeresBlocks) (cams : List Camera) (i : Nat)
    (c : Camera) (scene_id : Int) (hc : cams[i]? = some c) (h : b.refersInto cams) :
    (b.addMovingCamera c.camera_name_ i scene_id).refersInto cams := by
  unfold CeresBlocks.addMovingCamera
  split
  · exact h
  · refine ⟨h.1, fun e he => ?_⟩
    simp only [List.mem_append, List.mem_singleton] at he
    rcases he with he | he
    · exact h.2 e he
    · subst he
      exact ⟨c, hc, rfl⟩

theorem registerLoop_spec (cams : List Camera) (l : List Camera) (n : Nat) (b : CeresBlocks)
    (hl : cams.drop n = l) (hb : b.refersInto cams) :
    ((List.enumFrom n l).foldl
      (fun b ic =>
        if ic.2.is_moving_ then b.addMovingCamera ic.2.camera_name_ ic.1 0
        else b.addStaticCamera ic.2.camera_name_ ic.1) b).refersInto cams ∧
    (∀ name, (b.hasCamera name ∨ ∃ c ∈ l, c.camera_name_ = name) →
      ((List.enumFrom n l).foldl
        (fun b ic =>
          if ic.2.is_moving_ then b.addMovingCamera ic.2.camera_name_ ic.1 0
          else b.addStaticCamera ic.2.camera_name_ ic.1) b).hasCamera name) := by
  induction l generalizing n b with
  | nil =>
    refine ⟨by simpa using hb, fun name h => ?_⟩
    rcases h with h | ⟨c, hc, _⟩
    · simpa using h
    · cases hc
  | cons c cs ih =>
    have hget : cams[n]? = some c := by
      have := congrArg List.head? hl
      simpa [List.head?_drop] using this
    have hdrop : cams.drop (n + 1) = cs := by
      have := congrArg List.tail hl
      simpa [List.tail_drop] using this
    simp only [List.enumFrom_cons, List.foldl_cons]
    cases hm : c.is_moving_
    · simp only [Bool.false_eq_true, if_false]
      obtain ⟨k1, k2⟩ := ih (n + 1) (b.addStaticCamera c.camera_name_ n) hdrop
        (addStaticCamera_refersInto b cams n c hget hb)
      refine ⟨k1, fun name h => k2 name ?_⟩
      rcases h with h | ⟨d, hd, hn⟩
      · exact Or.inl (addStaticCamera_mono b _ _ name h)
      · rcases List.mem_cons.mp hd with hd | hd
        · subst hd
          subst hn
          exact Or.inl (addStaticCamera_hasCamera b _ _)
        · exact Or.inr ⟨d, hd, hn⟩
    · simp only [if_true]
      obtain ⟨k1, k2⟩ := ih (n + 1) (b.addMovingCamera c.camera_name_ n 0) hdrop
        (addMovingCamera_refersInto b cams n c 0 hget hb)
      refine ⟨k1, fun name h => k2 name ?_⟩
      rcases h with h | ⟨d, hd, hn⟩
      · exact Or.inl (addMovingCamera_mono b _ _ _ name h)
      · rcases List.mem_cons.mp hd with hd | hd
        · subst hd
          subst hn
          exact Or.inl (addMovingCamera_hasCamera b _ _ _)
        · exact Or.inr ⟨d, hd, hn⟩

theorem registerCameras_spec (cams : List Camera) :
    (registerCameras cams CeresBlocks.empty).refersInto cams ∧
    (∀ c ∈ cams, (registerCameras cams CeresBlocks.empty).hasCamera c.camera_name_) := by
  have hempty : CeresBlocks.empty.refersInto cams := by
    constructor <;> intro e he <;> cases he
  obtain ⟨h1, h2⟩ := registerLoop_spec cams cams 0 CeresBlocks.empty (by simp) hempty
  exact ⟨h1, fun c hc => h2 c.camera_name_ (Or.inr ⟨c, hc, rfl⟩)⟩

theorem addStaticTarget_cameras (b : CeresBlocks) (name : String) (t : Nat) :
    (b.addStaticTarget name t).static_cameras_ = b.static_cameras_ ∧
    (b.addStaticTarget name t).moving_cameras_ = b.moving_cameras_ := by
  unfold CeresBlocks.addStaticTarget
  split <;> simp

theorem addMovingTarget_cameras (b : CeresBlocks) (name : String) (t : Nat) (scene_id : Int) :
    (b.addMovingTarget name t scene_id).static_cameras_ = b.static_cameras_ ∧
    (b.addMovingTarget name t scene_id).moving_cameras_ = b.moving_cameras_ := by
  unfold CeresBlocks.addMovingTarget
  split <;> simp

theorem targetLoop_spec {D : Type} (l : List (Target D)) (n : Nat)
    (st : CeresBlocks × List (Event D))
    (hst : ∀ e ∈ st.2, ∃ j, e = Event.displayRvizTarget j) :
    ((List.enumFrom n l).foldl
      (fun st jt =>
        let shown := if jt.2.pub_rviz_vis_ then st.2 ++ [Event.displayRvizTarget jt.1] else st.2
        if jt.2.is_moving_ then (st.1.addMovingTarget jt.2.target_name_ jt.1 0, shown)
        else (st.1.addStaticTarget jt.2.target_name_ jt.1, shown)) st).1.static_cameras_
      = st.1.static_cameras_ ∧
    ((List.enumFrom n l).foldl
      (fun st jt =>
        let shown := if jt.2.pub_rviz_vis_ then st.2 ++ [Event.displayRvizTarget jt.1] else st.2
        if jt.2.is_moving_ then (st.1.addMovingTarget jt.2.target_name_ jt.1 0, shown)
        else (st.1.addStaticTarget jt.2.target_name_ jt.1, shown)) st).1.moving_cameras_
      = st.1.moving_cameras_ ∧
    (∀ e ∈ ((List.enumFrom n l).foldl
      (fun st jt =>
        let shown := if jt.2.pub_rviz_vis_ then st.2 ++ [Event.displayRvizTarget jt.1] else st.2
        if jt.2.is_moving_ then (st.1.addMovingTarget jt.2.target_name_ jt.1 0, shown)
        else (st.1.addStaticTarget jt.2.target_name_ jt.1, shown)) st).2,
      ∃ j, e = Event.displayRvizTarget j) := by
  induction l generalizing n st with
  | nil => exact ⟨rfl, rfl, hst⟩
  | cons t ts ih =>
    simp only [List.enumFrom_cons, List.foldl_cons]
    have hshown : ∀ e ∈
        (if t.pub_rviz_vis_ then st.2 ++ [Event.displayRvizTarget n] else st.2),
        ∃ j, e = Event.displayRvizTarget j := by
      intro e he
      split at he
      · rcases List.mem_append.mp he with h | h
        · exact hst e h
        · exact ⟨n, by simpa using h⟩
      · exact hst e he
    cases hm : t.is_moving_
    · simp only [Bool.false_eq_true, if_false]
      obtain ⟨k1, k2, k3⟩ := ih (n + 1) (st.1.addStaticTarget t.target_name_ n,
        if t.pub_rviz_vis_ then st.2 ++ [Event.displayRvizTarget n] else st.2) hshown
      exact ⟨k1.trans (addStaticTarget_cameras _ _ _).1,
        k2.trans (addStaticTarget_cameras _ _ _).2, k3⟩
    · simp only [if_true]
      obtain ⟨k1, k2, k3⟩ := ih (n + 1) (st.1.addMovingTarget t.target_name_ n 0,
        if t.pub_rviz_vis_ then st.2 ++ [Event.displayRvizTarget n] else st.2) hshown
      exact ⟨k1.trans (addMovingTarget_cameras _ _ _ _).1,
        k2.trans (addMovingTarget_cameras _ _ _ _).2, k3⟩

theorem registerTargets_spec {D : Type} (tgts : List (Target D)) (b : CeresBlocks) :
    (registerTargets (D := D) tgts b).1.static_cameras_ = b.static_cameras_ ∧
    (registerTargets (D := D) tgts b).1.moving_cameras_ = b.moving_cameras_ ∧
    (∀ e ∈ (registerTargets (D := D) tgts b).2, ∃ j, e = Event.displayRvizTarget j) :=
  targetLoop_spec tgts 0 (b, []) (by simp)

theorem getCameraByName_miss (D : Type) (b : CeresBlocks) (name : String)
    (h : ¬ b.hasCamera name) :
    b.getCameraByName D name = (none, [Event.unresolvedReference name]) := by
  unfold CeresBlocks.getCameraByName
  have hs : b.static_cameras_.find? (fun e => e.1 == name) = none := by
    rw [List.find?_eq_none]
    intro e he hn
    exact h (Or.inl ⟨e, he, by simpa using hn⟩)
  have hm : b.moving_cameras_.find? (fun e => e.1 == name) = none := by
    rw [List.find?_eq_none]
    intro e he hn
    exact h (Or.inr ⟨e, he, by simpa using hn⟩)
  simp [hs, hm]

theorem getCameraByName_hit (D : Type) (b : CeresBlocks) (cams : List Camera) (name : String)
    (hb : b.refersInto cams) (h : b.hasCamera name) :
    ∃ p c, b.getCameraByName D name = (some p, []) ∧ cams[p]? = some c ∧
      c.camera_name_ = name := by
  unfold CeresBlocks.getCameraByName
  cases hs : b.static_cameras_.find? (fun e => e.1 == name) with
  | some e =>
    have hmem := List.mem_of_find?_eq_some hs
    have hname : e.1 = name := by simpa using List.find?_some hs
    obtain ⟨c, hc, hcn⟩ := hb.1 e hmem
    exact ⟨e.2, c, rfl, hc, hcn.trans hname⟩
  | none =>
    cases hm : b.moving_cameras_.find? (fun e => e.1 == name) with
    | some e =>
      have hmem := List.mem_of_find?_eq_some hm
      have hname : e.1 = name := by simpa using List.find?_some hm
      obtain ⟨c, hc, hcn⟩ := hb.2 e hmem
      exact ⟨e.2.2, c, rfl, hc, hcn.trans hname⟩
    | none =>
      exfalso
      rw [List.find?_eq_none] at hs hm
      rcases h with ⟨e, he, hn⟩ | ⟨e, he, hn⟩
      · exact hs e he (by simpa using hn)
      · exact hm e he (by simpa using hn)

theorem getCameraByName_congr (D : Type) (b1 b2 : CeresBlocks)
    (hs : b2.static_cameras_ = b1.static_cameras_)
    (hm : b2.moving_cameras_ = b1.moving_cameras_) (name : String) :
    b2.getCameraByName D name = b1.getCameraByName D name := by
  unfold CeresBlocks.getCameraByName
  rw [hs, hm]

theorem index_eq_of_name_eq (cams : List Camera) (p k : Nat) (a b : Camera)
    (ha : cams[p]? = some a) (hb : cams[k]? = some b)
    (hname : a.camera_name_ = b.camera_name_)
    (hnodup : (cams.map (fun c => c.camera_name_)).Nodup) : p = k := by
  have hp : p < (cams.map (fun c => c.camera_name_)).length := by
    rw [List.length_map]
    exact (List.getElem?_eq_some.mp ha).1
  apply List.getElem?_inj hp hnodup
  simp [List.getElem?_map, ha, hb, hname]

theorem linkLoop_spec {D : Type} (b : CeresBlocks) (l : List Camera)
    (st : List Camera × List (Event D)) :
    l.foldl (linkStereo b) st =
      (st.1 ++ l.map (linkedCamera D b), st.2 ++ l.flatMap (lookupEvents D b)) := by
  induction l generalizing st with
  | nil => simp
  | cons c cs ih =>
    rw [List.foldl_cons, ih]
    unfold linkStereo linkedCamera lookupEvents
    cases h : c.is_right_stereo_camera_ <;> simp [h]

theorem init_blocks_eq {D : Type} (self : icalServiceNode D)
    (hreg : self.ceres_blocks_ = CeresBlocks.empty) :
    (init_blocks self).1.all_cameras_ =
      self.all_cameras_.map
        (linkedCamera D (registerCameras self.all_cameras_ CeresBlocks.empty)) ∧
    (init_blocks self).2 =
      (registerTargets (D := D) self.all_targets_
        (registerCameras self.all_cameras_ CeresBlocks.empty)).2 ++
      self.all_cameras_.flatMap
        (lookupEvents D (registerCameras self.all_cameras_ CeresBlocks.empty)) := by
  obtain ⟨t1, t2, _⟩ := registerTargets_spec (D := D) self.all_targets_
    (registerCameras self.all_cameras_ CeresBlocks.empty)
  have hcam : linkedCamera D (registerTargets (D := D) self.all_targets_
      (registerCameras self.all_cameras_ CeresBlocks.empty)).1 =
      linkedCamera D (registerCameras self.all_cameras_ CeresBlocks.empty) := by
    funext x
    simp only [linkedCamera, getCameraByName_congr D _ _ t1 t2]
  have hev : lookupEvents D (registerTargets (D := D) self.all_targets_
      (registerCameras self.all_cameras_ CeresBlocks.empty)).1 =
      lookupEvents D (registerCameras self.all_cameras_ CeresBlocks.empty) := by
    funext x
    simp only [lookupEvents, getCameraByName_congr D _ _ t1 t2]
  simp only [init_blocks, hreg, linkLoop_spec, hcam, hev, List.nil_append, and_self]

/-- C9: init_blocks, run on a node whose registry is empty as in the constructor.
For a camera marked is_right_stereo_camera_, when no camera of the list bears
left_stereo_camera_name_ the run of init_blocks raises the unresolved reference
error naming that camera, and the link left_stereo_camera_ is null; when a camera
bears that name, wherever it stands in the list, the link designates a camera
with that name (that very camera when camera names are unique) and no unresolved
reference error is raised for the name. -/
theorem init_blocks_stereo_link {D : Type} (self : icalServiceNode D)
    (hreg : self.ceres_blocks_ = CeresBlocks.empty) (i : Nat) (c : Camera)
    (hc : self.all_cameras_[i]? = some c) (hright : c.is_right_stereo_camera_ = true) :
    ((∀ c2 ∈ self.all_cameras_, c2.camera_name_ ≠ c.left_stereo_camera_name_) →
      Event.unresolvedReference c.left_stereo_camera_name_ ∈ (init_blocks self).2 ∧
      (init_blocks self).1.all_cameras_[i]? = some { c with left_stereo_camera_ := none }) ∧
    (∀ k c2, self.all_cameras_[k]? = some c2 →
      c2.camera_name_ = c.left_stereo_camera_name_ →
      ∃ p c3,
        (init_blocks self).1.all_cameras_[i]? = some { c with left_stereo_camera_ := some p } ∧
        (init_blocks self).1.all_cameras_[p]? = some c3 ∧
        c3.camera_name_ = c.left_stereo_camera_name_ ∧
        ((self.all_cameras_.map (fun x => x.camera_name_)).Nodup → p = k) ∧
        Event.unresolvedReference c.left_stereo_camera_name_ ∉ (init_blocks self).2) := by
  obtain ⟨_, _, t3⟩ := registerTargets_spec (D := D) self.all_targets_
    (registerCameras self.all_cameras_ CeresBlocks.empty)
  obtain ⟨r1, r2⟩ := registerCameras_spec self.all_cameras_
  obtain ⟨hcams, hevents⟩ := init_blocks_eq self hreg
  have hget : ∀ j : Nat, (init_blocks self).1.all_cameras_[j]? =
      (self.all_cameras_[j]?).map
        (linkedCamera D (registerCameras self.all_cameras_ CeresBlocks.empty)) := by
    intro j
    rw [hcams, List.getElem?_map]
  refine ⟨?_, ?_⟩
  · intro hmiss
    have hno : ¬ (registerCameras self.all_cameras_ CeresBlocks.empty).hasCamera
        c.left_stereo_camera_name_ := by
      rintro (⟨e, he, hn⟩ | ⟨e, he, hn⟩)
      · obtain ⟨d, hd, hdn⟩ := r1.1 e he
        exact hmiss d (List.getElem?_mem hd) (hdn.trans hn)
      · obtain ⟨d, hd, hdn⟩ := r1.2 e he
        exact hmiss d (List.getElem?_mem hd) (hdn.trans hn)
    constructor
    · rw [hevents]
      apply List.mem_append_right
      rw [List.mem_flatMap]
      refine ⟨c, List.getElem?_mem hc, ?_⟩
      simp [lookupEvents, hright, getCameraByName_miss D _ _ hno]
    · rw [hget i, hc]
      simp [linkedCamera, hright, getCameraByName_miss D _ _ hno]
  · intro k c2 hk hname
    have hhas : (registerCameras self.all_cameras_ CeresBlocks.empty).hasCamera
        c.left_stereo_camera_name_ := by
      rw [← hname]
      exact r2 c2 (List.getElem?_mem hk)
    obtain ⟨p, d, hp, hd, hdn⟩ := getCameraByName_hit D _ self.all_cameras_ _ r1 hhas
    refine ⟨p, linkedCamera D (registerCameras self.all_cameras_ CeresBlocks.empty) d,
      ?_, ?_, ?_, ?_, ?_⟩
    · rw [hget i, hc]
      simp [linkedCamera, hright, hp]
    · rw [hget p, hd]
      rfl
    · unfold linkedCamera
      split <;> exact hdn
    · intro hnodup
      exact index_eq_of_name_eq self.all_cameras_ p k d c2 hd hk (hdn.trans hname.symm) hnodup
    · rw [hevents]
      intro hmem
      rcases List.mem_append.mp hmem with h | h
      · obtain ⟨j, hj⟩ := t3 _ h
        cases hj
      · rw [List.mem_flatMap] at h
        obtain ⟨x, _, hx⟩ := h
        unfold lookupEvents at hx
        split at hx
        · by_cases hxhas : (registerCameras self.all_cameras_ CeresBlocks.empty).hasCamera
              x.left_stereo_camera_name_
          · obtain ⟨q, _, hq, _, _⟩ :=
              getCameraByName_hit D _ self.all_cameras_ _ r1 hxhas
            rw [hq] at hx
            cases hx
          · rw [getCameraByName_miss D _ _ hxhas] at hx
            simp only [List.mem_singleton, Event.unresolvedReference.injEq] at hx
            exact hxhas (hx ▸ hhas)
        · cases hx

/-- Instance of init_blocks_stereo_link. A right stereo camera alone, whose left
camera is in no list: the unresolved reference error is raised and the link is
null. The right camera first and the left camera it names second: the link
designates position 1 and no error is raised. -/
theorem init_blocks_stereo_link_witness :
    (Event.unresolvedReference rightCamera.left_stereo_camera_name_ ∈
        (init_blocks (loadedNode [rightCamera] [])).2 ∧
      (init_blocks (loadedNode [rightCamera] [])).1.all_cameras_[0]?
        = some { rightCamera with left_stereo_camera_ := none }) ∧
    (∃ p c3,
      (init_blocks (loadedNode [rightCamera, sampleCamera "left" 100] [])).1.all_cameras_[0]?
        = some { rightCamera with left_stereo_camera_ := some p } ∧
      (init_blocks (loadedNode [rightCamera, sampleCamera "left" 100] [])).1.all_cameras_[p]?
        = some c3 ∧
      c3.camera_name_ = rightCamera.left_stereo_camera_name_ ∧
      (((loadedNode [rightCamera, sampleCamera "left" 100] []).all_cameras_.map
        (fun x => x.camera_name_)).Nodup → p = 1) ∧
      Event.unresolvedReference rightCamera.left_stereo_camera_name_ ∉
        (init_blocks (loadedNode [rightCamera, sampleCamera "left" 100] [])).2) :=
  ⟨(init_blocks_stereo_link (loadedNode [rightCamera] []) rfl 0 rightCamera rfl rfl).1
      (by decide),
   (init_blocks_stereo_link (loadedNode [rightCamera, sampleCamera "left" 100] []) rfl 0
      rightCamera rfl rfl).2 1 (sampleCamera "left" 100) rfl rfl⟩

end ICal
